import Mathlib

/-!
Shallow embedding of the original glue logic of the quantization-aware-training
notebook: the AverageMeter metric accumulator, the ProgressMeter progress
reporter, the top-k accuracy evaluator and the train/validate epoch drivers.
Python numbers are modelled by rationals, Python exceptions by Except/Option
results.
-/

/-- Metric accumulator, translated from the notebook's AverageMeter class.
Numeric fields appear in the order reset assigns them: val, avg, sum, count. -/
structure AverageMeter where
  name : String
  fmt : String
  val : ℚ
  avg : ℚ
  sum : ℚ
  count : ℚ
  deriving DecidableEq

/-- AverageMeter.reset: sets val, avg, sum and count to 0. -/
def AverageMeter.reset (m : AverageMeter) : AverageMeter :=
  ⟨m.name, m.fmt, 0, 0, 0, 0⟩

/-- The AverageMeter constructor: stores name and fmt and runs reset, so every
numeric field starts at 0. -/
def AverageMeter.mkMeter (name fmt : String) : AverageMeter :=
  ⟨name, fmt, 0, 0, 0, 0⟩

/-- AverageMeter.update, translated line by line from the notebook:
self.val is set to val, self.sum is incremented by val * n, self.count is
incremented by n, and finally self.avg is recomputed as self.sum / self.count.
The final division raises ZeroDivisionError in Python exactly when the new
count is 0; the error value carries the state after the first three
assignments (val, sum and count already mutated, avg untouched).  The Python
default n=1 is passed explicitly at every call site of this embedding. -/
def AverageMeter.update (m : AverageMeter) (v n : ℚ) : Except AverageMeter AverageMeter :=
  if m.count + n = 0 then
    Except.error ⟨m.name, m.fmt, v, m.avg, m.sum + v * n, m.count + n⟩
  else
    Except.ok ⟨m.name, m.fmt, v, (m.sum + v * n) / (m.count + n), m.sum + v * n, m.count + n⟩

/-- Number of decimal digits of a natural number, as len(str(n)) computes it. -/
def numDigits (n : ℕ) : ℕ := (toString n).length

/-- Python width-w decimal formatting of a natural number, as produced by the
format string ProgressMeter builds: the decimal digits are right-aligned in a
field of width w, padded on the left with spaces. -/
def formatIntWidth (w : ℕ) (x : ℕ) : String :=
  String.mk (List.replicate (w - (toString x).length) ' ' ++ (toString x).data)

/-- The bracketed counter built by ProgressMeter._get_batch_fmtstr and
instantiated by display: the field width is len(str(num_batches // 1)) and both
the batch index and the total are formatted with it. -/
def batchCounter (num_batches batch : ℕ) : String :=
  "[" ++ formatIntWidth (numDigits (num_batches / 1)) batch ++ "/"
      ++ formatIntWidth (numDigits (num_batches / 1)) num_batches ++ "]"

/-- Progress reporter state, translated from the notebook's ProgressMeter:
a total batch count, the meters to report, and a prefix string. -/
structure ProgressMeter where
  num_batches : ℕ
  meters : List AverageMeter
  prefixStr : String

/-- ProgressMeter.display: one line made of the prefix followed by the batch
counter, then each meter's rendered string, joined with tab characters.
Rendering a meter (AverageMeter.__str__, Python float formatting) is opaque
here and passed in as meterStr. -/
def ProgressMeter.display (meterStr : AverageMeter → String) (pm : ProgressMeter)
    (batch : ℕ) : String :=
  String.intercalate "\t" ((pm.prefixStr ++ batchCounter pm.num_batches batch)
    :: pm.meters.map meterStr)

/-- Modelled from the spec: the counter as the spec's words describe it,
zero-padded, with padding width equal to the number of decimal digits of the
total.  Used only to compare the spec's wording with the code's behaviour. -/
def specZeroPadCounter (num_batches batch : ℕ) : String :=
  "[" ++ String.mk (List.replicate (numDigits num_batches - (toString batch).length) '0'
      ++ (toString batch).data) ++ "/" ++ toString num_batches ++ "]"

/-- Stable insertion of an (index, score) pair into a list already sorted by
descending score: the new pair is placed in front of the first entry whose
score is not greater than its own. -/
def insertDesc (p : ℕ × ℚ) : List (ℕ × ℚ) → List (ℕ × ℚ)
  | [] => [p]
  | q :: t => if p.2 < q.2 then q :: insertDesc p t else p :: q :: t

/-- Insertion sort of (index, score) pairs by descending score.  Processing the
pairs of row.enum head first keeps equal scores in ascending index order. -/
def sortDesc : List (ℕ × ℚ) → List (ℕ × ℚ)
  | [] => []
  | p :: t => insertDesc p (sortDesc t)

/-- The class indices of one score row listed by descending score, the
deterministic embedding of torch.topk(..., largest=True, sorted=True) along a
row; ties are resolved by ascending class index. -/
def sortedIndices (row : List ℚ) : List ℕ :=
  (sortDesc row.enum).map Prod.fst

/-- target.view(1, -1).expand_as(pred): succeeds when the label count matches
the row count, broadcasts a single label across all rows, and fails on any
other mismatch. -/
def expandTarget (t : List ℕ) (n : ℕ) : Option (List ℕ) :=
  if t.length = n then some t
  else if t.length = 1 then some (List.replicate n t.headI)
  else none

/-- The index part of output.topk(maxk, 1, True, True): for each example row,
its maxk highest-scoring class indices in descending score order. -/
def topkPred (output : List (List ℚ)) (maxk : ℕ) : List (List ℕ) :=
  output.map (fun row => (sortedIndices row).take maxk)

/-- correct[:k].reshape(-1).float().sum() written row-wise: the transposed
prediction matrix is compared against the expanded target, the first k
positions of every column are kept and the matches are counted, which per
example i is the number of occurrences of tgt[i] among the first k predicted
indices of row i. -/
def correctCount (pred : List (List ℕ)) (tgt : List ℕ) (k : ℕ) : ℕ :=
  ((pred.zip tgt).map (fun pt => (pt.1.take k).count pt.2)).sum

/-- The notebook's accuracy function.  maxk = max(topk) (max of an empty tuple
raises), batch_size = target.size(0), pred collects the top-maxk class indices
per row (torch.topk raises when maxk exceeds the class count), the target is
expanded against the transposed predictions, and for each requested k the
match count over the first k prediction positions is scaled by
100.0 / batch_size, which raises ZeroDivisionError when batch_size = 0.
Python exceptions are modelled as Except.error values. -/
def accuracy (output : List (List ℚ)) (target : List ℕ) (topk : List ℕ) :
    Except String (List ℚ) :=
  if topk = [] then Except.error "ValueError: max arg is an empty sequence"
  else
    if output.any (fun row => decide (row.length < topk.foldl Nat.max 0)) then
      Except.error "RuntimeError: selected index k out of range"
    else
      match expandTarget target (topkPred output (topk.foldl Nat.max 0)).length with
      | none => Except.error "RuntimeError: expanded size must match existing size"
      | some tgt =>
        if target.length = 0 then Except.error "ZeroDivisionError: float division by zero"
        else
          Except.ok (topk.map (fun k =>
            ((correctCount (topkPred output (topk.foldl Nat.max 0)) tgt k : ℕ) : ℚ)
              * (100 / (target.length : ℚ))))

/-- The optimizer operations the training loop invokes per batch; the
validation loop must invoke none of them. -/
inductive OptEvent where
  | zeroGrad
  | backward
  | step
  deriving DecidableEq

/-- One (images, target) pair produced by the data loader, together with the
wall-clock duration measured for the batch (an opaque input feeding the
batch_time meter). -/
structure Batch (α : Type) where
  images : List α
  target : List ℕ
  dur : ℚ

/-- The four meters both epoch drivers allocate. -/
structure EpochMeters where
  batch_time : AverageMeter
  losses : AverageMeter
  top1 : AverageMeter
  top5 : AverageMeter
  deriving DecidableEq

/-- The meters as train and validate construct them. -/
def initEpochMeters : EpochMeters :=
  ⟨AverageMeter.mkMeter "Time" ":3.3f", AverageMeter.mkMeter "Loss" ":2.3f",
   AverageMeter.mkMeter "Acc@1" ":2.2f", AverageMeter.mkMeter "Acc@5" ":2.2f"⟩

/-- One iteration of the validate loop body: forward pass, loss, accuracy at
topk=(1,5), then the losses/top1/top5/batch_time meter updates, in source
order.  The model parameters are read (by the forward pass) and returned
unchanged; no optimizer event is emitted.  Progress printing is I/O and is not
modelled.  Any Python exception propagates as none. -/
def validateStep {θ α : Type} (forward : θ → List α → List (List ℚ))
    (criterion : List (List ℚ) → List ℕ → ℚ)
    (st : θ × EpochMeters) (b : Batch α) : Option ((θ × EpochMeters) × List OptEvent) :=
  let output := forward st.1 b.images
  let loss := criterion output b.target
  match (accuracy output b.target [1, 5]).toOption with
  | some [acc1, acc5] =>
    let n : ℚ := (b.images.length : ℚ)
    match (st.2.losses.update loss n).toOption, (st.2.top1.update acc1 n).toOption,
          (st.2.top5.update acc5 n).toOption, (st.2.batch_time.update b.dur 1).toOption with
    | some losses', some top1', some top5', some bt' =>
      some ((st.1, ⟨bt', losses', top1', top5'⟩), [])
    | _, _, _, _ => none
  | _ => none

/-- One iteration of the train loop body: forward pass, loss, accuracy at
topk=(1,5), the losses/top1/top5 meter updates, then
optimizer.zero_grad / loss.backward / optimizer.step — modelled as the opaque
parameter update upd plus the three emitted events — and finally the
batch_time meter update. -/
def trainStep {θ α : Type} (forward : θ → List α → List (List ℚ))
    (criterion : List (List ℚ) → List ℕ → ℚ) (upd : θ → Batch α → θ)
    (st : θ × EpochMeters) (b : Batch α) : Option ((θ × EpochMeters) × List OptEvent) :=
  let output := forward st.1 b.images
  let loss := criterion output b.target
  match (accuracy output b.target [1, 5]).toOption with
  | some [acc1, acc5] =>
    let n : ℚ := (b.images.length : ℚ)
    match (st.2.losses.update loss n).toOption, (st.2.top1.update acc1 n).toOption,
          (st.2.top5.update acc5 n).toOption, (st.2.batch_time.update b.dur 1).toOption with
    | some losses', some top1', some top5', some bt' =>
      some ((upd st.1 b, ⟨bt', losses', top1', top5'⟩),
            [OptEvent.zeroGrad, OptEvent.backward, OptEvent.step])
    | _, _, _, _ => none
  | _ => none

/-- Sequential fold of an epoch body over the batch list, collecting the
emitted optimizer events; a failing body aborts the epoch (exceptions
propagate unmodified). -/
def runLoop {θ α : Type} (body : (θ × EpochMeters) → Batch α → Option ((θ × EpochMeters) × List OptEvent)) :
    (θ × EpochMeters) → List (Batch α) → Option ((θ × EpochMeters) × List OptEvent)
  | s, [] => some (s, [])
  | s, b :: bs =>
    match body s b with
    | none => none
    | some (s', ev) =>
      match runLoop body s' bs with
      | none => none
      | some (s'', evs) => some (s'', ev ++ evs)

/-- The notebook's validate function: fresh meters, the loop over the batches,
and the Python return value top1.avg (the third component); the summary print
is I/O and is not modelled. -/
def validate {θ α : Type} (forward : θ → List α → List (List ℚ))
    (criterion : List (List ℚ) → List ℕ → ℚ) (θ0 : θ) (batches : List (Batch α)) :
    Option ((θ × EpochMeters) × List OptEvent × Option ℚ) :=
  match runLoop (validateStep forward criterion) (θ0, initEpochMeters) batches with
  | none => none
  | some (s, evs) => some (s, evs, some s.2.top1.avg)

/-- The notebook's train function: fresh meters and the loop over the batches.
The Python function body contains no return statement, so its return value is
None (the third component is none on every successful run). -/
def train {θ α : Type} (forward : θ → List α → List (List ℚ))
    (criterion : List (List ℚ) → List ℕ → ℚ) (upd : θ → Batch α → θ)
    (θ0 : θ) (batches : List (Batch α)) :
    Option ((θ × EpochMeters) × List OptEvent × Option ℚ) :=
  match runLoop (trainStep forward criterion upd) (θ0, initEpochMeters) batches with
  | none => none
  | some (s, evs) => some (s, evs, none)

/-- The running top-1 meter on its own: the fold of the per-batch top-1
accuracy updates over the batch list, at fixed model parameters. -/
def finalTop1 {θ α : Type} (forward : θ → List α → List (List ℚ)) (θ0 : θ) :
    AverageMeter → List (Batch α) → Option AverageMeter
  | m, [] => some m
  | m, b :: bs =>
    match (accuracy (forward θ0 b.images) b.target [1, 5]).toOption with
    | some [acc1, _acc5] =>
      match (m.update acc1 (b.images.length : ℚ)).toOption with
      | none => none
      | some m' => finalTop1 forward θ0 m' bs
    | _ => none

/-! ### Supporting lemmas about the top-k index selection -/

lemma insertDesc_perm (p : ℕ × ℚ) (l : List (ℕ × ℚ)) :
    List.Perm (insertDesc p l) (p :: l) := by
  induction l with
  | nil => exact List.Perm.refl _
  | cons q t ih =>
    by_cases h : p.2 < q.2
    · simp only [insertDesc, if_pos h]
      exact (ih.cons q).trans (List.Perm.swap p q t)
    · simp only [insertDesc, if_neg h]
      exact List.Perm.refl _

lemma sortDesc_perm : ∀ l : List (ℕ × ℚ), List.Perm (sortDesc l) l
  | [] => List.Perm.refl _
  | p :: t => (insertDesc_perm p (sortDesc t)).trans ((sortDesc_perm t).cons p)

lemma sortedIndices_perm (row : List ℚ) :
    List.Perm (sortedIndices row) (List.range row.length) := by
  have h := (sortDesc_perm row.enum).map Prod.fst
  simpa [sortedIndices, List.enum_map_fst] using h

lemma sortedIndices_nodup (row : List ℚ) : (sortedIndices row).Nodup :=
  (sortedIndices_perm row).nodup_iff.mpr (List.nodup_range _)

lemma mem_sortedIndices (row : List ℚ) (i : ℕ) :
    i ∈ sortedIndices row ↔ i < row.length := by
  rw [(sortedIndices_perm row).mem_iff, List.mem_range]

lemma sortedIndices_length (row : List ℚ) :
    (sortedIndices row).length = row.length := by
  rw [(sortedIndices_perm row).length_eq, List.length_range]

lemma insertDesc_pairwise (p : ℕ × ℚ) (l : List (ℕ × ℚ))
    (h : l.Pairwise (fun a b => b.2 ≤ a.2)) :
    (insertDesc p l).Pairwise (fun a b => b.2 ≤ a.2) := by
  induction l with
  | nil => simp [insertDesc]
  | cons q t ih =>
    rcases List.pairwise_cons.mp h with ⟨hq, ht⟩
    by_cases hlt : p.2 < q.2
    · simp only [insertDesc, if_pos hlt]
      refine List.pairwise_cons.mpr ⟨?_, ih ht⟩
      intro x hx
      rcases List.mem_cons.mp ((insertDesc_perm p t).mem_iff.mp hx) with rfl | hxt
      · exact le_of_lt hlt
      · exact hq x hxt
    · simp only [insertDesc, if_neg hlt]
      have hqp : q.2 ≤ p.2 := le_of_not_lt hlt
      refine List.pairwise_cons.mpr ⟨?_, h⟩
      intro x hx
      rcases List.mem_cons.mp hx with rfl | hxt
      · exact hqp
      · exact le_trans (hq x hxt) hqp

/-- Sanity check for the embedding: sortDesc really orders the pairs by
descending score, so the first k indices are k highest-scoring classes. -/
lemma sortDesc_sorted : ∀ l : List (ℕ × ℚ), (sortDesc l).Pairwise (fun a b => b.2 ≤ a.2)
  | [] => List.Pairwise.nil
  | p :: t => insertDesc_pairwise p (sortDesc t) (sortDesc_sorted t)

lemma base_le_foldl_max : ∀ (l : List ℕ) (a : ℕ), a ≤ l.foldl Nat.max a
  | [], _ => le_refl _
  | b :: t, a => le_trans (Nat.le_max_left a b) (base_le_foldl_max t (Nat.max a b))

lemma le_foldl_max : ∀ (l : List ℕ) (a k : ℕ), k ∈ l → k ≤ l.foldl Nat.max a
  | [], _, _, h => nomatch h
  | b :: t, a, k, h => by
    rcases List.mem_cons.mp h with rfl | h2
    · exact le_trans (Nat.le_max_right a k) (base_le_foldl_max t (Nat.max a k))
    · exact le_foldl_max t (Nat.max a b) k h2

lemma foldl_max_le : ∀ (l : List ℕ) (a C : ℕ), a ≤ C → (∀ k ∈ l, k ≤ C) →
    l.foldl Nat.max a ≤ C
  | [], _, _, ha, _ => ha
  | b :: t, a, C, ha, h =>
    foldl_max_le t (Nat.max a b) C (Nat.max_le.mpr ⟨ha, h b (List.mem_cons_self b t)⟩)
      (fun x hx => h x (List.mem_cons_of_mem b hx))

lemma sum_map_eq_countP {β : Type} (p : β → Bool) : ∀ (l : List β) (f : β → ℕ),
    (∀ x ∈ l, f x = if p x then 1 else 0) → (l.map f).sum = l.countP p
  | [], _, _ => by simp
  | x :: t, f, h => by
    rw [List.map_cons, List.sum_cons, List.countP_cons,
      sum_map_eq_countP p t f (fun y hy => h y (List.mem_cons_of_mem x hy)),
      h x (List.mem_cons_self x t)]
    by_cases hp : p x <;> simp [hp, Nat.add_comm]

lemma count_eq_indicator {a : ℕ} {l : List ℕ} (h : l.Nodup) :
    l.count a = if a ∈ l then 1 else 0 := by
  by_cases hm : a ∈ l
  · rw [if_pos hm]
    exact List.count_eq_one_of_mem h hm
  · rw [if_neg hm]
    exact List.count_eq_zero_of_not_mem hm

lemma mem_take_mono {a : ℕ} {l : List ℕ} {k1 k2 : ℕ} (hk : k1 ≤ k2)
    (h : a ∈ l.take k1) : a ∈ l.take k2 := by
  have heq : l.take k1 = (l.take k2).take k1 := by
    rw [List.take_take, Nat.min_eq_left hk]
  rw [heq] at h
  exact List.take_subset _ _ h

lemma correctCount_eq_countP (scores : List (List ℚ)) (target : List ℕ) (k maxk : ℕ)
    (hk : k ≤ maxk) :
    correctCount (topkPred scores maxk) target k =
      (scores.zip target).countP (fun rt => decide (rt.2 ∈ (sortedIndices rt.1).take k)) := by
  unfold correctCount topkPred
  rw [List.zip_map_left, List.map_map]
  apply sum_map_eq_countP
  intro rt _hrt
  obtain ⟨r, t⟩ := rt
  simp only [Function.comp, Prod.map, id]
  rw [List.take_take, Nat.min_eq_left hk,
    count_eq_indicator (List.Nodup.sublist (List.take_sublist _ _) (sortedIndices_nodup r))]
  simp

/-- Closed form of the evaluator on a well-formed batch: for each requested k,
the result is the number of examples whose label is among the first k entries
of the descending score order, scaled by 100 / N. -/
lemma accuracy_ok_closed (scores : List (List ℚ)) (target : List ℕ) (C : ℕ) (ks : List ℕ)
    (hne : ks ≠ []) (hN : target.length ≠ 0) (hlen : scores.length = target.length)
    (hrows : ∀ row ∈ scores, row.length = C) (hmax : ks.foldl Nat.max 0 ≤ C) :
    accuracy scores target ks = Except.ok (ks.map (fun k =>
      (((scores.zip target).countP
          (fun rt => decide (rt.2 ∈ (sortedIndices rt.1).take k)) : ℕ) : ℚ)
        * (100 / (target.length : ℚ)))) := by
  have hguard : scores.any (fun row => decide (row.length < ks.foldl Nat.max 0)) = false := by
    rw [List.any_eq_false]
    intro row hrow
    simp only [decide_eq_true_eq, hrows row hrow]
    exact Nat.not_lt.mpr hmax
  have hlength : (topkPred scores (ks.foldl Nat.max 0)).length = target.length := by
    rw [topkPred, List.length_map, hlen]
  have hexp : expandTarget target (topkPred scores (ks.foldl Nat.max 0)).length
      = some target := by
    rw [hlength, expandTarget, if_pos rfl]
  unfold accuracy
  rw [if_neg hne, hguard]
  simp only [Bool.false_eq_true, if_false, hexp]
  rw [if_neg hN]
  congr 1
  apply List.map_congr_left
  intro k hk
  rw [correctCount_eq_countP scores target k (ks.foldl Nat.max 0) (le_foldl_max ks 0 k hk)]

/-! ### Supporting lemmas about the epoch drivers -/

lemma validateStep_spec {θ α : Type} (forward : θ → List α → List (List ℚ))
    (criterion : List (List ℚ) → List ℕ → ℚ) (st : θ × EpochMeters) (b : Batch α)
    (s' : θ × EpochMeters) (ev : List OptEvent)
    (h : validateStep forward criterion st b = some (s', ev)) :
    s'.1 = st.1 ∧ ev = [] ∧
      ∃ acc1 acc5,
        (accuracy (forward st.1 b.images) b.target [1, 5]).toOption = some [acc1, acc5] ∧
        (st.2.top1.update acc1 ((b.images.length : ℚ))).toOption = some s'.2.top1 := by
  simp only [validateStep] at h
  split at h
  next acc1 acc5 heq =>
    split at h
    next losses' top1' top5' bt' h1 h2 h3 h4 =>
      have h5 := Option.some.inj h
      have h6 : (st.1, (⟨bt', losses', top1', top5'⟩ : EpochMeters)) = s' :=
        congrArg Prod.fst h5
      have h7 : ev = [] := (congrArg Prod.snd h5).symm
      subst h6
      exact ⟨rfl, h7, acc1, acc5, heq, h2⟩
    next => exact Option.noConfusion h
  next => exact Option.noConfusion h

lemma validate_runLoop_spec {θ α : Type} (forward : θ → List α → List (List ℚ))
    (criterion : List (List ℚ) → List ℕ → ℚ) :
    ∀ (bs : List (Batch α)) (θ0 : θ) (ms : EpochMeters) (s : θ × EpochMeters)
      (evs : List OptEvent),
      runLoop (validateStep forward criterion) (θ0, ms) bs = some (s, evs) →
      s.1 = θ0 ∧ evs = [] ∧ finalTop1 forward θ0 ms.top1 bs = some s.2.top1 := by
  intro bs
  induction bs with
  | nil =>
    intro θ0 ms s evs h
    have h5 := Option.some.inj h
    have h6 : ((θ0, ms) : θ × EpochMeters) = s := congrArg Prod.fst h5
    have h7 : evs = [] := (congrArg Prod.snd h5).symm
    subst h6
    exact ⟨rfl, h7, rfl⟩
  | cons b bs ih =>
    intro θ0 ms s evs h
    rw [runLoop] at h
    split at h
    next => exact Option.noConfusion h
    next s' ev hstep =>
      split at h
      next => exact Option.noConfusion h
      next s'' evs' hrest =>
        have h5 := Option.some.inj h
        have h6 : s'' = s := congrArg Prod.fst h5
        have h7 : evs = ev ++ evs' := (congrArg Prod.snd h5).symm
        subst h6
        obtain ⟨hθ, hev, acc1, acc5, hacc, hupd⟩ :=
          validateStep_spec forward criterion (θ0, ms) b s' ev hstep
        obtain ⟨θ1, ms1⟩ := s'
        simp only at hθ
        rw [hθ] at hrest
        dsimp only at hacc hupd
        obtain ⟨hs1, hevs', hfin⟩ := ih θ0 ms1 s'' evs' hrest
        refine ⟨hs1, ?_, ?_⟩
        · rw [h7, hev, hevs']
          rfl
        · simp only [finalTop1, hacc, hupd]
          exact hfin

/-! ### Claims about the Top-K Accuracy Evaluator -/

/-- Claim C1: for every score matrix with N > 0 rows and C columns, every label
vector of length N whose entries are valid column indices, and every requested
K with 1 <= K <= C, the accuracy the evaluator computes for that K equals
100 * (number of examples whose true label is among that example's K
highest-scoring class indices) / N. -/
theorem accuracy_topk_formula (scores : List (List ℚ)) (target : List ℕ) (C K : ℕ)
    (hN : 0 < target.length) (hlen : scores.length = target.length)
    (hrows : ∀ row ∈ scores, row.length = C) (hlab : ∀ t ∈ target, t < C)
    (hK1 : 1 ≤ K) (hKC : K ≤ C) :
    accuracy scores target [K] =
      Except.ok [100 * (((scores.zip target).countP
          (fun rt => decide (rt.2 ∈ (sortedIndices rt.1).take K)) : ℕ) : ℚ)
        / (target.length : ℚ)] := by
  have hmax : List.foldl Nat.max 0 [K] ≤ C := by simpa using hKC
  rw [accuracy_ok_closed scores target C [K] (by simp) hN.ne' hlen hrows hmax]
  simp only [List.map_cons, List.map_nil]
  congr 2
  ring

/-- Concrete instance of claim C1: two examples, two classes, K = 1, both
labels hit the top-scoring class, so the accuracy is 100 * 2 / 2 = 100. -/
theorem accuracy_topk_formula_witness :
    0 < ([0, 1] : List ℕ).length ∧
    accuracy [[2, 1], [1, 2]] [0, 1] [1] = Except.ok [100] := by
  refine ⟨by decide, ?_⟩
  have h := accuracy_topk_formula [[2, 1], [1, 2]] [0, 1] 2 1 (by decide) (by decide)
    (by decide) (by decide) (by decide) (by decide)
  rw [h]
  norm_num +decide [sortedIndices, sortDesc, insertDesc, List.enum, List.enumFrom]

/-- Claim C5: on every non-empty batch with valid labels, the accuracy the
evaluator computes for K = C is exactly 100. -/
theorem accuracy_topk_full_classes (scores : List (List ℚ)) (target : List ℕ) (C : ℕ)
    (hN : 0 < target.length) (hlen : scores.length = target.length)
    (hrows : ∀ row ∈ scores, row.length = C) (hlab : ∀ t ∈ target, t < C) :
    accuracy scores target [C] = Except.ok [100] := by
  have hmax : List.foldl Nat.max 0 [C] ≤ C := by simp
  rw [accuracy_ok_closed scores target C [C] (by simp) hN.ne' hlen hrows hmax]
  simp only [List.map_cons, List.map_nil]
  have hcnt : (scores.zip target).countP
      (fun rt => decide (rt.2 ∈ (sortedIndices rt.1).take C))
      = (scores.zip target).length := by
    rw [List.countP_eq_length]
    intro rt hrt
    obtain ⟨hr, ht⟩ := List.of_mem_zip hrt
    have hlenr : rt.1.length = C := hrows rt.1 hr
    have htake : (sortedIndices rt.1).take C = sortedIndices rt.1 := by
      apply List.take_of_length_le
      rw [sortedIndices_length, hlenr]
    rw [htake]
    simp only [decide_eq_true_eq, mem_sortedIndices, hlenr]
    exact hlab rt.2 ht
  have hNq : (target.length : ℚ) ≠ 0 := Nat.cast_ne_zero.mpr hN.ne'
  rw [hcnt, List.length_zip, hlen, Nat.min_self]
  congr 2
  field_simp

/-- Concrete instance of claim C5: two examples, two classes, K = C = 2. -/
theorem accuracy_topk_full_classes_witness :
    0 < ([1, 0] : List ℕ).length ∧
    accuracy [[2, 1], [1, 2]] [1, 0] [2] = Except.ok [100] :=
  ⟨by decide, accuracy_topk_full_classes [[2, 1], [1, 2]] [1, 0] 2 (by decide) (by decide)
    (by decide) (by decide)⟩

/-- Claim C6: on every non-empty batch with valid labels and requested values
K1 < K2 <= C, the accuracies the evaluator computes satisfy acc(K1) <= acc(K2). -/
theorem accuracy_topk_monotone (scores : List (List ℚ)) (target : List ℕ) (C K1 K2 : ℕ)
    (hN : 0 < target.length) (hlen : scores.length = target.length)
    (hrows : ∀ row ∈ scores, row.length = C) (hlab : ∀ t ∈ target, t < C)
    (hK1 : 1 ≤ K1) (h12 : K1 < K2) (hK2C : K2 ≤ C) :
    ∃ a1 a2, accuracy scores target [K1, K2] = Except.ok [a1, a2] ∧ a1 ≤ a2 := by
  have hmax : List.foldl Nat.max 0 [K1, K2] ≤ C := by
    simp only [List.foldl]
    exact Nat.max_le.mpr ⟨Nat.max_le.mpr ⟨Nat.zero_le C, le_trans (le_of_lt h12) hK2C⟩, hK2C⟩
  have hcl := accuracy_ok_closed scores target C [K1, K2] (by simp) hN.ne' hlen hrows hmax
  refine ⟨(((scores.zip target).countP
      (fun rt => decide (rt.2 ∈ (sortedIndices rt.1).take K1)) : ℕ) : ℚ)
        * (100 / (target.length : ℚ)),
    (((scores.zip target).countP
      (fun rt => decide (rt.2 ∈ (sortedIndices rt.1).take K2)) : ℕ) : ℚ)
        * (100 / (target.length : ℚ)), ?_, ?_⟩
  · rw [hcl]
    rfl
  · apply mul_le_mul_of_nonneg_right
    · have hmono : (scores.zip target).countP
          (fun rt => decide (rt.2 ∈ (sortedIndices rt.1).take K1))
          ≤ (scores.zip target).countP
          (fun rt => decide (rt.2 ∈ (sortedIndices rt.1).take K2)) := by
        apply List.countP_mono_left
        intro rt _hrt hmem
        simp only [decide_eq_true_eq] at hmem ⊢
        exact mem_take_mono (le_of_lt h12) hmem
      exact_mod_cast hmono
    · exact div_nonneg (by norm_num) (Nat.cast_nonneg _)

/-- Concrete instance of claim C6: ties broken toward class 0, so K=1 scores 50
and K=2 scores 100. -/
theorem accuracy_topk_monotone_witness :
    0 < ([0, 1] : List ℕ).length ∧
    ∃ a1 a2, accuracy [[2, 1], [2, 1]] [0, 1] [1, 2] = Except.ok [a1, a2] ∧ a1 ≤ a2 :=
  ⟨by decide, accuracy_topk_monotone [[2, 1], [2, 1]] [0, 1] 2 1 2 (by decide) (by decide)
    (by decide) (by decide) (by decide) (by decide) (by decide)⟩

/-- Claim C7: invoked with an empty batch (no labels, so batch_size = N = 0),
the evaluator fails with an error instead of returning a result, whatever the
score rows and the requested k values are. -/
theorem accuracy_empty_batch_fails (scores : List (List ℚ)) (ks : List ℕ) :
    ∃ e, accuracy scores [] ks = Except.error e := by
  by_cases hks : ks = []
  · exact ⟨"ValueError: max arg is an empty sequence", by rw [accuracy, if_pos hks]⟩
  by_cases hany : scores.any (fun row => decide (row.length < ks.foldl Nat.max 0)) = true
  · exact ⟨"RuntimeError: selected index k out of range",
      by rw [accuracy, if_neg hks, if_pos hany]⟩
  cases hexp : expandTarget [] (topkPred scores (ks.foldl Nat.max 0)).length with
  | none =>
    exact ⟨"RuntimeError: expanded size must match existing size",
      by rw [accuracy, if_neg hks, if_neg hany, hexp]⟩
  | some tgt =>
    refine ⟨"ZeroDivisionError: float division by zero", ?_⟩
    rw [accuracy, if_neg hks, if_neg hany, hexp]
    simp

/-! ### Claims about the Metric Accumulator -/

/-- Claim C2: the accumulator contract.  The constructor and reset zero the
value, sum, count and average; reading the average of a freshly reset meter is
a plain field read that yields 0 without raising; and update(value, weight)
sets the current value, adds value*weight to the sum, adds weight to the
count, and recomputes average = sum/count (the recomputation is a division, so
it is defined whenever the new count is nonzero). -/
theorem averageMeter_contract :
    (∀ name fmt, AverageMeter.mkMeter name fmt = ⟨name, fmt, 0, 0, 0, 0⟩) ∧
    (∀ m : AverageMeter, m.reset = ⟨m.name, m.fmt, 0, 0, 0, 0⟩) ∧
    (∀ m : AverageMeter, (m.reset).avg = 0) ∧
    (∀ (m : AverageMeter) (v w : ℚ), m.count + w ≠ 0 →
      m.update v w = Except.ok
        ⟨m.name, m.fmt, v, (m.sum + v * w) / (m.count + w), m.sum + v * w, m.count + w⟩) := by
  refine ⟨fun _ _ => rfl, fun _ => rfl, fun _ => rfl, fun m v w h => ?_⟩
  rw [AverageMeter.update, if_neg h]

/-- Concrete instance of claim C2: update(4, 1) on a fresh meter gives
sum = 4, count = 1, average = 4. -/
theorem averageMeter_contract_witness :
    ((AverageMeter.mkMeter "Loss" ":2.3f").count + 1 ≠ 0) ∧
    AverageMeter.update (AverageMeter.mkMeter "Loss" ":2.3f") 4 1 =
      Except.ok ⟨"Loss", ":2.3f", 4, 4, 4, 1⟩ := by
  constructor
  · norm_num [AverageMeter.mkMeter]
  · have h := averageMeter_contract.2.2.2 (AverageMeter.mkMeter "Loss" ":2.3f") 4 1
      (by norm_num [AverageMeter.mkMeter])
    rw [h]
    norm_num [AverageMeter.mkMeter]

/-- Claim C8 counterexample: update(1, 0) on a freshly reset meter raises
ZeroDivisionError (count stays 0) and the stored average is still 0, not the
updated value 1, so "average equals v regardless of w" fails at w = 0. -/
theorem update_zero_weight_cex :
    AverageMeter.update (AverageMeter.mkMeter "Acc@1" ":2.2f") 1 0 =
      Except.error ⟨"Acc@1", ":2.2f", 1, 0, 0, 0⟩ ∧
    (⟨"Acc@1", ":2.2f", 1, 0, 0, 0⟩ : AverageMeter).avg ≠ 1 := by
  constructor
  · norm_num [AverageMeter.update, AverageMeter.mkMeter]
  · norm_num

/-- Claim C8 (amended): for every value v and every nonzero weight w, a single
update(v, w) on a freshly reset accumulator succeeds and stores average = v
exactly. -/
theorem update_once_from_reset_avg (m : AverageMeter) (v w : ℚ) (hw : w ≠ 0) :
    ∃ m', (m.reset).update v w = Except.ok m' ∧ m'.avg = v := by
  have hc : (m.reset).count + w ≠ 0 := by
    simpa [AverageMeter.reset] using hw
  refine ⟨_, by rw [AverageMeter.update, if_neg hc], ?_⟩
  show ((m.reset).sum + v * w) / ((m.reset).count + w) = v
  simp only [AverageMeter.reset]
  rw [zero_add, zero_add]
  exact mul_div_cancel_right₀ v hw

/-- Concrete instance of the amended claim C8: update(2, 3) from reset stores
average 2. -/
theorem update_once_from_reset_avg_witness :
    ((3 : ℚ) ≠ 0) ∧ ∃ m', ((AverageMeter.mkMeter "Acc@5" ":2.2f").reset).update 2 3
      = Except.ok m' ∧ m'.avg = 2 :=
  ⟨by norm_num,
    update_once_from_reset_avg (AverageMeter.mkMeter "Acc@5" ":2.2f") 2 3 (by norm_num)⟩

/-- Claim C10: update(val, n) raises exactly when the cumulative count after
the update is zero, and the error state has val, sum and count already
mutated while avg still holds its previous value (no atomicity on error). -/
theorem update_error_iff_zero_count (m : AverageMeter) (v n : ℚ) :
    m.update v n = Except.error ⟨m.name, m.fmt, v, m.avg, m.sum + v * n, m.count + n⟩
      ↔ m.count + n = 0 := by
  constructor
  · intro h
    by_contra hc
    rw [AverageMeter.update, if_neg hc] at h
    exact Except.noConfusion h
  · intro hc
    rw [AverageMeter.update, if_pos hc]

/-! ### Claims about the Progress Reporter -/

lemma formatIntWidth_self (x : ℕ) : formatIntWidth (toString x).length x = toString x := by
  rw [formatIntWidth, Nat.sub_self]
  rfl

/-- Claim C3 counterexample: for total=100, batch=7 the code renders the
counter as "[  7/100]" (space padding), while a zero-padded counter of the
claimed width would read "[007/100]"; the two differ, so the rendered counter
is not zero-padded. -/
theorem progress_counter_not_zero_padded :
    ProgressMeter.display (fun _ => "") ⟨100, [], ""⟩ 7 = "[  7/100]" ∧
    specZeroPadCounter 100 7 = "[007/100]" ∧
    ("[  7/100]" : String) ≠ "[007/100]" :=
  ⟨by decide, by decide, by decide⟩

/-- Claim C3 (amended): display renders the counter [batch/total] with the
batch index right-aligned in a field whose width is the number of decimal
digits of the total, padded on the left with spaces (not zeros); in particular
for total=100 and batch=7 it renders as the bracketed counter with two
spaces. -/
theorem progress_display_space_padded (meterStr : AverageMeter → String)
    (pm : ProgressMeter) (batch : ℕ) (h : 1 ≤ pm.num_batches) :
    ProgressMeter.display meterStr pm batch =
      String.intercalate "\t" ((pm.prefixStr ++ ("[" ++
        String.mk (List.replicate (numDigits pm.num_batches - (toString batch).length) ' '
          ++ (toString batch).data) ++ "/" ++ toString pm.num_batches ++ "]"))
        :: pm.meters.map meterStr) := by
  rw [ProgressMeter.display, batchCounter, Nat.div_one]
  unfold numDigits
  rw [formatIntWidth_self, formatIntWidth]

/-- Concrete instance of the amended claim C3: total=100, batch=7 renders the
counter as "[  7/100]". -/
theorem progress_display_space_padded_witness :
    1 ≤ (100 : ℕ) ∧ ProgressMeter.display (fun _ => "") ⟨100, [], ""⟩ 7 = "[  7/100]" := by
  constructor
  · decide
  · have h := progress_display_space_padded (fun _ => "") ⟨100, [], ""⟩ 7 (by decide)
    rw [h]
    decide

/-! ### Claims about the Epoch Loop Driver -/

/-- A one-example, five-class demonstration model used as a concrete input. -/
def demoForward : Unit → List Unit → List (List ℚ) := fun _ _ => [[5, 4, 3, 2, 1]]

/-- A demonstration loss function (constant zero). -/
def demoCriterion : List (List ℚ) → List ℕ → ℚ := fun _ _ => 0

/-- A single one-image batch labelled with the top-scoring class. -/
def demoBatch : Batch Unit := ⟨[()], [0], 0⟩

/-- The meters after running the demonstration batch: one update each, both
accuracies at 100. -/
def demoMeters : EpochMeters :=
  ⟨⟨"Time", ":3.3f", 0, 0, 0, 1⟩, ⟨"Loss", ":2.3f", 0, 0, 0, 1⟩,
   ⟨"Acc@1", ":2.2f", 100, 100, 100, 1⟩, ⟨"Acc@5", ":2.2f", 100, 100, 100, 1⟩⟩

/-- Claim C4 counterexample: on a concrete one-batch training run the driver
returns no value (the Python function body has no return statement) even
though the final running top-1 average is 100, so "in either mode the driver
returns the final top-1 average" fails in training mode. -/
theorem train_returns_none_cex :
    train demoForward demoCriterion (fun p _ => p) () [demoBatch] =
      some (((), demoMeters), [OptEvent.zeroGrad, OptEvent.backward, OptEvent.step], none) ∧
    demoMeters.top1.avg = 100 ∧ (none : Option ℚ) ≠ some 100 := by
  refine ⟨?_, by norm_num [demoMeters], by simp⟩
  norm_num +decide [train, runLoop, trainStep, demoForward, demoCriterion, demoBatch, demoMeters,
    accuracy, topkPred, sortedIndices, sortDesc, insertDesc, expandTarget, correctCount,
    List.enum, List.enumFrom, initEpochMeters, AverageMeter.update, AverageMeter.mkMeter,
    Except.toOption]

/-- Claim C4 (amended): a completed validation run returns exactly the final
running top-1 average, the average held by the top-1 accumulator after the
last batch; a completed training run returns no value. -/
theorem epoch_driver_return_value :
    (∀ (θ α : Type) (forward : θ → List α → List (List ℚ))
        (criterion : List (List ℚ) → List ℕ → ℚ) (θ0 : θ) (bs : List (Batch α))
        (s : θ × EpochMeters) (evs : List OptEvent) (r : Option ℚ),
      validate forward criterion θ0 bs = some (s, evs, r) →
        ∃ m, finalTop1 forward θ0 (AverageMeter.mkMeter "Acc@1" ":2.2f") bs = some m ∧
          r = some m.avg) ∧
    (∀ (θ α : Type) (forward : θ → List α → List (List ℚ))
        (criterion : List (List ℚ) → List ℕ → ℚ) (upd : θ → Batch α → θ) (θ0 : θ)
        (bs : List (Batch α)) (s : θ × EpochMeters) (evs : List OptEvent) (r : Option ℚ),
      train forward criterion upd θ0 bs = some (s, evs, r) → r = none) := by
  constructor
  · intro θ α forward criterion θ0 bs s evs r h
    rw [validate] at h
    cases hrl : runLoop (validateStep forward criterion) (θ0, initEpochMeters) bs with
    | none =>
      rw [hrl] at h
      exact Option.noConfusion h
    | some p =>
      obtain ⟨s0, evs0⟩ := p
      rw [hrl] at h
      have h5 := Option.some.inj h
      have h9 : some s0.2.top1.avg = r :=
        congrArg (fun x : (θ × EpochMeters) × List OptEvent × Option ℚ => x.2.2) h5
      obtain ⟨_, _, hfin⟩ :=
        validate_runLoop_spec forward criterion bs θ0 initEpochMeters s0 evs0 hrl
      exact ⟨s0.2.top1, hfin, h9.symm⟩
  · intro θ α forward criterion upd θ0 bs s evs r h
    rw [train] at h
    cases hrl : runLoop (trainStep forward criterion upd) (θ0, initEpochMeters) bs with
    | none =>
      rw [hrl] at h
      exact Option.noConfusion h
    | some p =>
      obtain ⟨s0, evs0⟩ := p
      rw [hrl] at h
      have h5 := Option.some.inj h
      have h9 : (none : Option ℚ) = r :=
        congrArg (fun x : (θ × EpochMeters) × List OptEvent × Option ℚ => x.2.2) h5
      exact h9.symm

/-- Concrete instance of the amended claim C4: the demonstration validation
run returns some 100, the average of the final top-1 meter. -/
theorem epoch_driver_return_value_witness :
    ∃ m, finalTop1 demoForward () (AverageMeter.mkMeter "Acc@1" ":2.2f") [demoBatch]
        = some m ∧ (some (100 : ℚ) : Option ℚ) = some m.avg := by
  apply epoch_driver_return_value.1 Unit Unit demoForward demoCriterion () [demoBatch]
    ((), demoMeters) [] (some 100)
  norm_num +decide [validate, runLoop, validateStep, demoForward, demoCriterion, demoBatch,
    demoMeters, accuracy, topkPred, sortedIndices, sortDesc, insertDesc, expandTarget,
    correctCount, List.enum, List.enumFrom, initEpochMeters, AverageMeter.update,
    AverageMeter.mkMeter, Except.toOption]

/-- Claim C9: a completed validation run leaves the model parameters exactly
as they were before the run and invokes no optimizer zero-gradient, backward
or step operation. -/
theorem validate_preserves_params {θ α : Type} (forward : θ → List α → List (List ℚ))
    (criterion : List (List ℚ) → List ℕ → ℚ) (θ0 : θ) (bs : List (Batch α))
    (s : θ × EpochMeters) (evs : List OptEvent) (r : Option ℚ)
    (h : validate forward criterion θ0 bs = some (s, evs, r)) :
    s.1 = θ0 ∧ evs = [] := by
  rw [validate] at h
  cases hrl : runLoop (validateStep forward criterion) (θ0, initEpochMeters) bs with
  | none =>
    rw [hrl] at h
    exact Option.noConfusion h
  | some p =>
    obtain ⟨s0, evs0⟩ := p
    rw [hrl] at h
    have h5 := Option.some.inj h
    have h6 : s0 = s := congrArg Prod.fst h5
    have h7 : evs0 = evs :=
      congrArg (fun x : (θ × EpochMeters) × List OptEvent × Option ℚ => x.2.1) h5
    obtain ⟨hθ', hevs, _⟩ :=
      validate_runLoop_spec forward criterion bs θ0 initEpochMeters s0 evs0 hrl
    subst h6
    exact ⟨hθ', h7.symm.trans hevs⟩

/-- Concrete instance of claim C9: the demonstration validation run returns
the parameters unchanged and an empty optimizer event trace. -/
theorem validate_preserves_params_witness :
    ((((), demoMeters) : Unit × EpochMeters).1 = () ∧ ([] : List OptEvent) = []) := by
  apply validate_preserves_params demoForward demoCriterion () [demoBatch]
    ((), demoMeters) [] (some 100)
  norm_num +decide [validate, runLoop, validateStep, demoForward, demoCriterion, demoBatch,
    demoMeters, accuracy, topkPred, sortedIndices, sortDesc, insertDesc, expandTarget,
    correctCount, List.enum, List.enumFrom, initEpochMeters, AverageMeter.update,
    AverageMeter.mkMeter, Except.toOption]
